import Mathlib

/-!
Shallow embedding of the authentication subsystem of the
Smart-Work-Assistant repository (src/apps/server): the auth controller
(authController.js), the auth middleware and JWT helpers
(authMiddleware.js, utils/jwt.js), the route-level validation
(authRoutes.js) and the persistence layer as constrained by the SQL
migration (unique index users_email_key on users.email).

Modelling conventions: machine time is a Nat of milliseconds; the
bcrypt hash and the JWT HMAC are modelled symbolically as injective
string constructions (the standard symbolic-crypto abstraction of a
collision-free one-way function); the database is a list of user rows
with the unique-email constraint enforced atomically by the insert
operation; a JS value that may be absent is an Option, and JS string
falsiness (undefined or empty) is Option.getD followed by comparison
with the empty string.
-/

namespace SmartWork

/-- Full user row as stored by the persistence layer (Prisma user model:
id, name, email, password hash, createdAt). -/
structure UserRecord where
  id : String
  name : String
  email : String
  password : String
  createdAt : Nat
  deriving DecidableEq, Repr

/-- The projection of a user that the controllers and middleware expose:
exactly the fields of the select clauses and the object literal in
authController.js and authMiddleware.js. -/
structure UserProjection where
  id : String
  name : String
  email : String
  createdAt : Nat
  deriving DecidableEq, Repr

/-- Mirrors the select clause of authMiddleware.js (and the response
object literal of signIn): id, name, email, createdAt, no password. -/
def projectUser (u : UserRecord) : UserProjection :=
  { id := u.id, name := u.name, email := u.email, createdAt := u.createdAt }

/-- Field list of the serialized user object in a JSON response, in the
order the source constructs it. The first component of each pair is the
JSON key. -/
def projectionFields (p : UserProjection) : List (String × String) :=
  [("id", p.id), ("name", p.name), ("email", p.email),
   ("createdAt", toString p.createdAt)]

/-- The persistence store: the users table. -/
abbrev Store := List UserRecord

/-- Mirrors prisma.user.findUnique on the email column. -/
def findByEmail (db : Store) (email : String) : Option UserRecord :=
  List.find? (fun u => u.email == email) db

/-- Mirrors prisma.user.findUnique on the id column. -/
def findById (db : Store) (id : String) : Option UserRecord :=
  List.find? (fun u => u.id == id) db

/-- Database error raised by an insert that violates the unique index
users_email_key of the migration. -/
inductive DbError where
  | uniqueViolation
  deriving DecidableEq, Repr

/-- Mirrors prisma.user.create backed by the migrated schema: the unique
index users_email_key rejects a duplicate email atomically, otherwise
the row is appended. -/
def createUser (db : Store) (u : UserRecord) : Except DbError Store :=
  if List.any db (fun v => v.email == u.email) then
    Except.error DbError.uniqueViolation
  else
    Except.ok (db ++ [u])

/-- Symbolic model of bcrypt.hash: an injective one-way construction. -/
def bcryptHash (plain : String) : String :=
  "bcrypt$2b$10$" ++ plain

/-- Symbolic model of bcrypt.compare: a candidate matches a stored hash
exactly when hashing the candidate reproduces it. -/
def bcryptCompare (candidate stored : String) : Bool :=
  bcryptHash candidate == stored

/-- Server configuration surface consumed by utils/jwt.js: the signing
secret (JWT_SECRET), the optional token lifetime override
(JWT_EXPIRES_IN, in milliseconds here) and NODE_ENV. -/
structure Env where
  jwtSecret : String
  jwtExpiresInMs : Option Nat
  nodeEnv : String
  deriving DecidableEq, Repr

/-- The default configuration: the insecure default secret, the 7-day
default lifetime, non-production environment. -/
def defaultEnv : Env :=
  { jwtSecret := "your-super-secret-key-change-this-in-production",
    jwtExpiresInMs := none,
    nodeEnv := "development" }

/-- Token lifetime: JWT_EXPIRES_IN when configured, else the default of
7 days, in milliseconds. -/
def tokenLifetimeMs (env : Env) : Nat :=
  match env.jwtExpiresInMs with
  | some v => v
  | none => 7 * 24 * 60 * 60 * 1000

/-- Symbolic HMAC signature over the token payload, keyed by the
secret. -/
def mkSig (secret userId : String) (expiry : Nat) : String :=
  "hmac(" ++ secret ++ "," ++ userId ++ "," ++ toString expiry ++ ")"

/-- Wire form of a token string as the jsonwebtoken library classifies
it: either a structurally well-formed signed token (payload userId,
expiry, attached signature, possibly tampered) or any other string. -/
inductive TokenWire where
  | signed (userId : String) (expiry : Nat) (sig : String)
  | malformed (raw : String)
  deriving DecidableEq, Repr

/-- Mirrors generateToken of utils/jwt.js: jwt.sign embedding the userId
and an expiry of now plus the configured lifetime, signed with the
secret. -/
def generateToken (env : Env) (userId : String) (now : Nat) : TokenWire :=
  TokenWire.signed userId (now + tokenLifetimeMs env)
    (mkSig env.jwtSecret userId (now + tokenLifetimeMs env))

/-- The failures jwt.verify raises: malformed input, signature mismatch,
expired token. -/
inductive JwtError where
  | malformedToken
  | badSignature
  | expired
  deriving DecidableEq, Repr

/-- Decoded token payload returned by jwt.verify on success. -/
structure DecodedClaim where
  userId : String
  deriving DecidableEq, Repr

/-- Mirrors the jsonwebtoken verify call itself, which throws on any
failure: malformed string, wrong signature, or an expiry at or before
the clock reading. -/
def jwtVerifyE (env : Env) (w : TokenWire) (now : Nat) :
    Except JwtError DecodedClaim :=
  match w with
  | TokenWire.malformed _ => Except.error JwtError.malformedToken
  | TokenWire.signed userId expiry sig =>
    if sig ≠ mkSig env.jwtSecret userId expiry then
      Except.error JwtError.badSignature
    else if expiry ≤ now then
      Except.error JwtError.expired
    else
      Except.ok { userId := userId }

/-- Mirrors verifyToken of utils/jwt.js: the try/catch wrapper that
turns every failure of jwt.verify into null and returns the decoded
claim otherwise. -/
def verifyToken (env : Env) (w : TokenWire) (now : Nat) :
    Option DecodedClaim :=
  match jwtVerifyE env w now with
  | Except.ok c => some c
  | Except.error _ => none

/-- A Set-Cookie instruction with the attribute set used by
utils/jwt.js. The value is a token wire string; the cleared cookie
carries the empty string. -/
structure Cookie where
  name : String
  value : TokenWire
  httpOnly : Bool
  secure : Bool
  sameSite : String
  maxAge : Option Nat
  expires : Option Nat
  path : String
  deriving DecidableEq, Repr

/-- Mirrors setTokenCookie of utils/jwt.js: httpOnly, secure only in
production, sameSite strict, a hard-coded maxAge of 7 days in
milliseconds, path /. -/
def setTokenCookie (env : Env) (token : TokenWire) : Cookie :=
  { name := "token", value := token, httpOnly := true,
    secure := env.nodeEnv == "production", sameSite := "strict",
    maxAge := some (7 * 24 * 60 * 60 * 1000), expires := none,
    path := "/" }

/-- Mirrors clearTokenCookie of utils/jwt.js: same flag set, empty
value, expires at epoch 0. -/
def clearTokenCookie (env : Env) : Cookie :=
  { name := "token", value := TokenWire.malformed "", httpOnly := true,
    secure := env.nodeEnv == "production", sameSite := "strict",
    maxAge := none, expires := some 0, path := "/" }

/-- One entry of the errors array produced by checkValidation. -/
structure ErrItem where
  field : String
  message : String
  deriving DecidableEq, Repr

/-- JSON response body shape used across the auth subsystem: success
flag, message, optional user projection, optional errors array. -/
structure Body where
  success : Bool
  message : String
  user : Option UserProjection
  errors : Option (List ErrItem)
  deriving DecidableEq, Repr

/-- An HTTP response: status code, JSON body, optional Set-Cookie. -/
structure HttpResponse where
  status : Nat
  body : Body
  cookie : Option Cookie
  deriving DecidableEq, Repr

/-- Error or plain response body with no user and no errors array. -/
def mkBody (ok : Bool) (msg : String) : Body :=
  { success := ok, message := msg, user := none, errors := none }

/-- A request body as the controllers see it: each field may be absent.
Requests to signIn simply leave name unused. -/
structure ReqBody where
  name : Option String
  email : Option String
  password : Option String
  deriving DecidableEq, Repr

/-- JS read of a possibly-absent string field: absent reads as the empty
string for the purpose of the falsiness checks in the controllers. -/
def fieldVal (v : Option String) : String :=
  Option.getD v ""

/-- Phase one of signUp in authController.js, up to and including the
read-only duplicate pre-check (steps 1 to 3): a some result is an early
400 response, none means the request proceeds to the insert. -/
def signUpPrecheck (db : Store) (b : ReqBody) : Option HttpResponse :=
  if (fieldVal b.name == "") || (fieldVal b.email == "")
      || (fieldVal b.password == "") then
    some { status := 400,
           body := mkBody false "Please provide name, email, and password",
           cookie := none }
  else if (fieldVal b.password).length < 6 then
    some { status := 400,
           body := mkBody false "Password must be at least 6 characters long",
           cookie := none }
  else
    match findByEmail db (fieldVal b.email) with
    | some _ =>
      some { status := 400, body := mkBody false "Email already registered",
             cookie := none }
    | none => none

/-- Phase two of signUp (steps 4 to 8): hash the password, insert the
row, issue a token and set the cookie. A unique-constraint violation in
the insert throws and is absorbed by the catch block of signUp, which
answers 500. -/
def signUpCommit (env : Env) (db : Store) (b : ReqBody) (now : Nat)
    (newId : String) : HttpResponse × Store :=
  match createUser db
      { id := newId, name := fieldVal b.name, email := fieldVal b.email,
        password := bcryptHash (fieldVal b.password), createdAt := now } with
  | Except.error _ =>
    ({ status := 500, body := mkBody false "Internal server error",
       cookie := none }, db)
  | Except.ok db2 =>
    ({ status := 201,
       body := { success := true, message := "User created successfully",
                 user := some { id := newId, name := fieldVal b.name,
                                email := fieldVal b.email, createdAt := now },
                 errors := none },
       cookie := some (setTokenCookie env (generateToken env newId now)) },
     db2)

/-- The signUp controller of authController.js, run to completion
against a fixed store snapshot: the pre-check phase followed, when it
passes, by the insert phase. newId stands for the database-generated
row id and now for the clock reading. -/
def signUp (env : Env) (db : Store) (b : ReqBody) (now : Nat)
    (newId : String) : HttpResponse × Store :=
  match signUpPrecheck db b with
  | some r => (r, db)
  | none => signUpCommit env db b now newId

/-- The signIn controller of authController.js. -/
def signIn (env : Env) (db : Store) (b : ReqBody) (now : Nat) :
    HttpResponse :=
  if (fieldVal b.email == "") || (fieldVal b.password == "") then
    { status := 400, body := mkBody false "Please provide email and password",
      cookie := none }
  else
    match findByEmail db (fieldVal b.email) with
    | none =>
      { status := 401, body := mkBody false "Invalid email or password",
        cookie := none }
    | some user =>
      if ¬ bcryptCompare (fieldVal b.password) user.password then
        { status := 401, body := mkBody false "Invalid email or password",
          cookie := none }
      else
        { status := 200,
          body := { success := true, message := "Signed in successfully",
                    user := some { id := user.id, name := user.name,
                                   email := user.email,
                                   createdAt := user.createdAt },
                    errors := none },
          cookie := some (setTokenCookie env (generateToken env user.id now)) }

/-- The signOut controller of authController.js: clear the cookie,
answer 200. -/
def signOut (env : Env) : HttpResponse :=
  { status := 200, body := mkBody true "Signed out successfully",
    cookie := some (clearTokenCookie env) }

/-- Outcome of the authenticate middleware: either it responds itself,
or it attaches the resolved user projection to the request and calls
next(). -/
inductive AuthOutcome where
  | respond (r : HttpResponse)
  | proceed (user : UserProjection)
  deriving DecidableEq, Repr

/-- The authenticate middleware of authMiddleware.js: read the token
cookie, verify it, resolve the user (password excluded by the select
clause), then proceed; each failed check answers 401 immediately. -/
def authenticate (env : Env) (db : Store) (cookieToken : Option TokenWire)
    (now : Nat) : AuthOutcome :=
  match cookieToken with
  | none =>
    AuthOutcome.respond
      { status := 401,
        body := mkBody false "Authentication required. Please sign in.",
        cookie := none }
  | some token =>
    match verifyToken env token now with
    | none =>
      AuthOutcome.respond
        { status := 401,
          body := mkBody false "Invalid or expired token. Please sign in again.",
          cookie := none }
    | some decoded =>
      match findById db decoded.userId with
      | none =>
        AuthOutcome.respond
          { status := 401,
            body := mkBody false "User not found. Please sign in again.",
            cookie := none }
      | some user => AuthOutcome.proceed (projectUser user)

/-- Sanitizer trim of the validator library (JS String.prototype.trim):
drops leading and trailing whitespace. -/
def jsTrim (s : String) : String :=
  String.mk (List.reverse (List.dropWhile Char.isWhitespace
    (List.reverse (List.dropWhile Char.isWhitespace s.data))))

/-- Sanitizer normalizeEmail of the validator library with its default
options, as documented in authRoutes.js: lowercases the address. -/
def normalizeEmail (s : String) : String :=
  String.mk (List.map Char.toLower s.data)

/-- The name chain of validateSignUp in authRoutes.js: trim, notEmpty,
isLength between 2 and 50. An absent field fails each validator; each
failing validator contributes its message. -/
def nameChainMsgs (v : Option String) : List ErrItem :=
  match v with
  | none =>
    [{ field := "name", message := "Name is required" },
     { field := "name",
       message := "Name must be between 2 and 50 characters" }]
  | some s =>
    (if jsTrim s == "" then
      [({ field := "name", message := "Name is required" } : ErrItem)]
    else []) ++
    (if (jsTrim s).length < 2 || 50 < (jsTrim s).length then
      [({ field := "name",
          message := "Name must be between 2 and 50 characters" } : ErrItem)]
    else [])

/-- The email chain shared by validateSignUp and validateSignIn in
authRoutes.js: trim, notEmpty, isEmail (the external validator-library
predicate, passed in), then the normalizeEmail sanitizer. -/
def emailChainMsgs (isEmail : String → Bool) (v : Option String) :
    List ErrItem :=
  match v with
  | none =>
    [{ field := "email", message := "Email is required" },
     { field := "email",
       message := "Please provide a valid email address" }]
  | some s =>
    (if jsTrim s == "" then
      [({ field := "email", message := "Email is required" } : ErrItem)]
    else []) ++
    (if ¬ isEmail (jsTrim s) then
      [({ field := "email",
          message := "Please provide a valid email address" } : ErrItem)]
    else [])

/-- The password chain of validateSignUp: notEmpty and isLength at
least 6, with no trim sanitizer. -/
def passwordChainSignUpMsgs (v : Option String) : List ErrItem :=
  match v with
  | none =>
    [{ field := "password", message := "Password is required" },
     { field := "password",
       message := "Password must be at least 6 characters long" }]
  | some s =>
    (if s == "" then
      [({ field := "password", message := "Password is required" } : ErrItem)]
    else []) ++
    (if s.length < 6 then
      [({ field := "password",
          message := "Password must be at least 6 characters long" } : ErrItem)]
    else [])

/-- The password chain of validateSignIn: notEmpty only. -/
def passwordChainSignInMsgs (v : Option String) : List ErrItem :=
  match v with
  | none =>
    [({ field := "password", message := "Password is required" } : ErrItem)]
  | some s =>
    if s == "" then
      [({ field := "password", message := "Password is required" } : ErrItem)]
    else []

/-- The validateSignUp chain of authRoutes.js: the three field chains
in order, collecting every failure, alongside the sanitized body
(trimmed name, trimmed and normalized email, untouched password). -/
def validateSignUp (isEmail : String → Bool) (b : ReqBody) :
    List ErrItem × ReqBody :=
  (nameChainMsgs b.name ++ emailChainMsgs isEmail b.email ++
    passwordChainSignUpMsgs b.password,
   { name := Option.map jsTrim b.name,
     email := Option.map (fun s => normalizeEmail (jsTrim s)) b.email,
     password := b.password })

/-- The validateSignIn chain of authRoutes.js: the same email chain,
and password checked only for presence. -/
def validateSignIn (isEmail : String → Bool) (b : ReqBody) :
    List ErrItem × ReqBody :=
  (emailChainMsgs isEmail b.email ++ passwordChainSignInMsgs b.password,
   { name := b.name,
     email := Option.map (fun s => normalizeEmail (jsTrim s)) b.email,
     password := b.password })

/-- The checkValidation helper of authRoutes.js: a 400 response carrying
the errors array when any validator failed, none when the request may
proceed. -/
def checkValidation (errors : List ErrItem) : Option HttpResponse :=
  if errors.isEmpty then none
  else
    some { status := 400,
           body := { success := false, message := "Validation failed",
                     user := none, errors := some errors },
           cookie := none }

/-- The full POST /api/auth/signup pipeline of authRoutes.js:
validateSignUp, checkValidation, then the signUp controller on the
sanitized body. -/
def signUpRoute (isEmail : String → Bool) (env : Env) (db : Store)
    (b : ReqBody) (now : Nat) (newId : String) : HttpResponse × Store :=
  match checkValidation (validateSignUp isEmail b).1 with
  | some r => (r, db)
  | none => signUp env db (validateSignUp isEmail b).2 now newId

/-- The full POST /api/auth/signin pipeline of authRoutes.js:
validateSignIn, checkValidation, then the signIn controller on the
sanitized body. -/
def signInRoute (isEmail : String → Bool) (env : Env) (db : Store)
    (b : ReqBody) (now : Nat) : HttpResponse :=
  match checkValidation (validateSignIn isEmail b).1 with
  | some r => r
  | none => signIn env db (validateSignIn isEmail b).2 now

/-- Interleaved execution of two concurrent signUp requests against the
same store: both read-only pre-checks run against the initial snapshot
(neither sees the other), then the insert phases serialize at the
database, which alone enforces uniqueness. This is the racing schedule
of the concurrency model of the spec. -/
def raceSignUp (env : Env) (db0 : Store) (bA bB : ReqBody)
    (nowA nowB : Nat) (idA idB : String) :
    HttpResponse × HttpResponse × Store :=
  match signUpPrecheck db0 bA, signUpPrecheck db0 bB with
  | some rA, some rB => (rA, rB, db0)
  | some rA, none =>
    let cB := signUpCommit env db0 bB nowB idB
    (rA, cB.1, cB.2)
  | none, some rB =>
    let cA := signUpCommit env db0 bA nowA idA
    (cA.1, rB, cA.2)
  | none, none =>
    let cA := signUpCommit env db0 bA nowA idA
    let cB := signUpCommit env cA.2 bB nowB idB
    (cA.1, cB.1, cB.2)

/-! Helper lemmas and shared concrete fixtures. -/

/-- A string built from a character list is empty exactly when the list
is. -/
lemma string_mk_eq_empty_iff (l : List Char) : String.mk l = "" ↔ l = [] := by
  simp [String.ext_iff]

/-- A string of positive length is not the empty string. -/
lemma beq_empty_eq_false_of_le_length (s : String) (h : 1 ≤ s.length) :
    (s == "") = false := by
  rcases s with ⟨l⟩
  simp only [String.ext_iff, beq_eq_false_iff_ne, ne_eq]
  intro hl
  rw [hl] at h
  simp [String.length] at h

/-- Lowercasing preserves emptiness. -/
lemma normalizeEmail_beq_empty (s : String) :
    (normalizeEmail s == "") = (s == "") := by
  rcases s with ⟨l⟩
  cases l <;>
    simp [normalizeEmail, string_mk_eq_empty_iff, String.ext_iff]

/-- Concrete fixture: the sign-up request of the worked example in the
spec. -/
def annReq : ReqBody :=
  { name := some "Ann", email := some "a@x.com", password := some "secret1" }

/-- Concrete fixture: the stored row that the annReq sign-up creates. -/
def annUser : UserRecord :=
  { id := "u1", name := "Ann", email := "a@x.com",
    password := bcryptHash "secret1", createdAt := 0 }

/-! Claim theorems. -/

/-- C1: every user object the auth subsystem emits — the signUp 201
payload, the signIn 200 payload, and the user the middleware attaches to
the request — serializes exactly the keys id, name, email, createdAt,
and never a password key (plaintext or hashed). -/
theorem C1_user_projection_never_contains_password
    (isEmail : String → Bool) (env : Env) (db : Store) (b c : ReqBody)
    (now now2 now3 : Nat) (newId : String) (tok : Option TokenWire)
    (p q u : UserProjection) :
    ((signUpRoute isEmail env db b now newId).1.body.user = some p →
      (projectionFields p).map Prod.fst = ["id", "name", "email", "createdAt"] ∧
      "password" ∉ (projectionFields p).map Prod.fst) ∧
    ((signIn env db c now2).body.user = some q →
      (projectionFields q).map Prod.fst = ["id", "name", "email", "createdAt"] ∧
      "password" ∉ (projectionFields q).map Prod.fst) ∧
    (authenticate env db tok now3 = AuthOutcome.proceed u →
      (projectionFields u).map Prod.fst = ["id", "name", "email", "createdAt"] ∧
      "password" ∉ (projectionFields u).map Prod.fst) := by
  refine ⟨fun _ => ⟨rfl, ?_⟩, fun _ => ⟨rfl, ?_⟩, fun _ => ⟨rfl, ?_⟩⟩ <;>
    simp [projectionFields]

/-- Witness for C1 at the concrete sign-up of the spec example. -/
theorem C1_witness :
    (projectionFields
        { id := "u1", name := "Ann", email := "a@x.com", createdAt := 0 }).map
        Prod.fst = ["id", "name", "email", "createdAt"] ∧
    "password" ∉ (projectionFields
        { id := "u1", name := "Ann", email := "a@x.com", createdAt := 0 }).map
        Prod.fst :=
  (C1_user_projection_never_contains_password (fun _ => true) defaultEnv []
      annReq annReq 0 0 0 "u1" none
      { id := "u1", name := "Ann", email := "a@x.com", createdAt := 0 }
      { id := "u1", name := "Ann", email := "a@x.com", createdAt := 0 }
      { id := "u1", name := "Ann", email := "a@x.com", createdAt := 0 }).1
    (by decide)

/-- C2: a sign-in whose email matches no stored user and a sign-in whose
email matches a user but whose password fails the hash comparison
produce literally identical responses: status 401, the generic body, no
cookie. Identical structured bodies serialize to identical bytes. -/
theorem C2_signin_unknown_email_and_wrong_password_identical
    (env1 env2 : Env) (db1 db2 : Store) (b1 b2 : ReqBody)
    (now1 now2 : Nat) (u : UserRecord)
    (he1 : (fieldVal b1.email == "") = false)
    (hp1 : (fieldVal b1.password == "") = false)
    (hf1 : findByEmail db1 (fieldVal b1.email) = none)
    (he2 : (fieldVal b2.email == "") = false)
    (hp2 : (fieldVal b2.password == "") = false)
    (hf2 : findByEmail db2 (fieldVal b2.email) = some u)
    (hc : bcryptCompare (fieldVal b2.password) u.password = false) :
    signIn env1 db1 b1 now1 = signIn env2 db2 b2 now2 ∧
    (signIn env1 db1 b1 now1).status = 401 ∧
    (signIn env1 db1 b1 now1).body =
      { success := false, message := "Invalid email or password",
        user := none, errors := none } ∧
    (signIn env1 db1 b1 now1).cookie = none := by
  have e1 : signIn env1 db1 b1 now1 =
      { status := 401, body := mkBody false "Invalid email or password",
        cookie := none } := by
    simp [signIn, he1, hp1, hf1]
  have e2 : signIn env2 db2 b2 now2 =
      { status := 401, body := mkBody false "Invalid email or password",
        cookie := none } := by
    simp [signIn, he2, hp2, hf2, hc]
  rw [e1, e2]
  simp [mkBody]

/-- Witness for C2: unknown email against the empty store versus wrong
password against the stored example user. -/
theorem C2_witness :
    signIn defaultEnv []
        { name := none, email := some "a@x.com", password := some "secret1" } 0 =
      signIn defaultEnv [annUser]
        { name := none, email := some "a@x.com", password := some "wrong1" } 3 :=
  (C2_signin_unknown_email_and_wrong_password_identical defaultEnv defaultEnv
      [] [annUser]
      { name := none, email := some "a@x.com", password := some "secret1" }
      { name := none, email := some "a@x.com", password := some "wrong1" }
      0 3 annUser (by decide) (by decide) (by decide) (by decide) (by decide)
      (by decide) (by decide)).1

/-- C3: the middleware checks the cookie, then token validity, then user
existence, in that order, answering 401 at the first failure, and
otherwise attaches the password-free projection of the resolved user and
proceeds; being a function into AuthOutcome it produces exactly one
outcome. -/
theorem C3_authenticate_checks_in_order (env : Env) (db : Store) (now : Nat) :
    (authenticate env db none now = AuthOutcome.respond
      { status := 401,
        body := mkBody false "Authentication required. Please sign in.",
        cookie := none }) ∧
    (∀ t, verifyToken env t now = none →
      authenticate env db (some t) now = AuthOutcome.respond
        { status := 401,
          body := mkBody false "Invalid or expired token. Please sign in again.",
          cookie := none }) ∧
    (∀ t c, verifyToken env t now = some c → findById db c.userId = none →
      authenticate env db (some t) now = AuthOutcome.respond
        { status := 401,
          body := mkBody false "User not found. Please sign in again.",
          cookie := none }) ∧
    (∀ t c u, verifyToken env t now = some c → findById db c.userId = some u →
      authenticate env db (some t) now = AuthOutcome.proceed (projectUser u)) := by
  refine ⟨rfl, ?_, ?_, ?_⟩
  · intro t ht
    simp [authenticate, ht]
  · intro t c ht hu
    simp [authenticate, ht, hu]
  · intro t c u ht hu
    simp [authenticate, ht, hu]

/-- Witness for C3: a fresh valid token for the stored example user
makes the middleware proceed with the projection. -/
theorem C3_witness :
    authenticate defaultEnv [annUser]
        (some (generateToken defaultEnv "u1" 0)) 5
      = AuthOutcome.proceed (projectUser annUser) :=
  (C3_authenticate_checks_in_order defaultEnv [annUser] 5).2.2.2
    (generateToken defaultEnv "u1" 0) { userId := "u1" } annUser
    (by decide) (by decide)

/-- C4: a token issued at T with the configured lifetime L verifies to
its userId at any time strictly before T+L and is rejected at any time
strictly after T+L. -/
theorem C4_issue_verify_roundtrip_and_expiry
    (env : Env) (uid : String) (T t1 t2 : Nat)
    (h1 : t1 < T + tokenLifetimeMs env)
    (h2 : T + tokenLifetimeMs env < t2) :
    verifyToken env (generateToken env uid T) t1 = some { userId := uid } ∧
    verifyToken env (generateToken env uid T) t2 = none := by
  constructor
  · simp [verifyToken, generateToken, jwtVerifyE, Nat.not_le.mpr h1]
  · simp [verifyToken, generateToken, jwtVerifyE, Nat.le_of_lt h2]

/-- Witness for C4: with the default 7-day lifetime, a token issued at 0
verifies at 1 and fails at 604800001. -/
theorem C4_witness :
    verifyToken defaultEnv (generateToken defaultEnv "u1" 0) 1 =
      some { userId := "u1" } ∧
    verifyToken defaultEnv (generateToken defaultEnv "u1" 0) 604800001 = none :=
  C4_issue_verify_roundtrip_and_expiry defaultEnv "u1" 0 1 604800001
    (by decide) (by decide)

/-- C5: verifyToken is a total function: it returns the decoded claim
exactly when the underlying jwt verification succeeds and returns none
exactly when that verification raises (malformed input, bad signature,
or expiry); in particular every malformed string maps to none. No
exception crosses its boundary. -/
theorem C5_verify_total_maps_all_failures_to_none
    (env : Env) (w : TokenWire) (now : Nat) :
    (verifyToken env w now = none ↔
      ∃ e, jwtVerifyE env w now = Except.error e) ∧
    (∀ c, verifyToken env w now = some c ↔
      jwtVerifyE env w now = Except.ok c) ∧
    (∀ raw, verifyToken env (TokenWire.malformed raw) now = none) := by
  refine ⟨?_, ?_, ?_⟩
  · cases h : jwtVerifyE env w now <;> simp [verifyToken, h]
  · intro c
    cases h : jwtVerifyE env w now <;> simp [verifyToken, h]
  · intro raw
    simp [verifyToken, jwtVerifyE]

/-- Elimination for a passing sign-up pre-check: all three fields are
non-falsy, the password is long enough, and no stored user carries the
email. -/
lemma precheck_none_facts (db : Store) (b : ReqBody)
    (h : signUpPrecheck db b = none) :
    (fieldVal b.name == "") = false ∧ (fieldVal b.email == "") = false ∧
    (fieldVal b.password == "") = false ∧
    ¬ (fieldVal b.password).length < 6 ∧
    findByEmail db (fieldVal b.email) = none := by
  unfold signUpPrecheck at h
  cases hn : (fieldVal b.name == "") with
  | true => rw [hn] at h; simp at h
  | false =>
  cases he : (fieldVal b.email == "") with
  | true => rw [he] at h; simp at h
  | false =>
  cases hp : (fieldVal b.password == "") with
  | true => rw [hp] at h; simp at h
  | false =>
  rw [hn, he, hp] at h
  simp only [Bool.or_self, Bool.or_false, Bool.false_eq_true, if_false] at h
  by_cases hlen : (fieldVal b.password).length < 6
  · rw [if_pos hlen] at h
    simp at h
  · rw [if_neg hlen] at h
    cases hf : findByEmail db (fieldVal b.email) with
    | some u => rw [hf] at h; simp at h
    | none => exact ⟨rfl, rfl, rfl, hlen, rfl⟩

/-- C6 counterexample: two concurrent identical sign-ups on an empty
store both pass the read-only pre-check; the first insert answers 201,
the second violates the unique index, is absorbed by the generic catch
handler and answers 500 — not the 400 DuplicateEmail the claim
states. -/
theorem C6_counterexample :
    (raceSignUp defaultEnv [] annReq annReq 0 0 "u1" "u2").1.status = 201 ∧
    (raceSignUp defaultEnv [] annReq annReq 0 0 "u1" "u2").2.1.status = 500 ∧
    ¬ (raceSignUp defaultEnv [] annReq annReq 0 0 "u1" "u2").2.1.status = 400 := by
  decide

/-- C6 amended: a sequential sign-up for an already-registered email
answers 400 with the duplicate-email body and leaves the store
unchanged; under the concurrent interleaving the unique index admits
exactly one row for the email — one request answers 201 and the losing
request answers 500 (the constraint violation falls into the generic
catch handler), not 400. -/
theorem C6_amended_duplicate_sequential_400_race_loser_500
    (env : Env) (db0 : Store) (bA bB : ReqBody) (nowA nowB : Nat)
    (idA idB : String) (e : String)
    (heA : fieldVal bA.email = e) (heB : fieldVal bB.email = e)
    (hA : signUpPrecheck db0 bA = none) (hB : signUpPrecheck db0 bB = none) :
    ((raceSignUp env db0 bA bB nowA nowB idA idB).1.status = 201 ∧
     (raceSignUp env db0 bA bB nowA nowB idA idB).2.1.status = 500 ∧
     List.countP (fun u => u.email == e)
       (raceSignUp env db0 bA bB nowA nowB idA idB).2.2 = 1) ∧
    (∀ db b now nid u, findByEmail db (fieldVal b.email) = some u →
      (fieldVal b.name == "") = false → (fieldVal b.email == "") = false →
      (fieldVal b.password == "") = false →
      ¬ (fieldVal b.password).length < 6 →
      signUp env db b now nid =
        ({ status := 400, body := mkBody false "Email already registered",
           cookie := none }, db)) := by
  constructor
  · have hfA : findByEmail db0 e = none := by
      rw [← heA]
      exact (precheck_none_facts db0 bA hA).2.2.2.2
    have hany : db0.any (fun v => v.email == e) = false := by
      apply Bool.eq_false_iff.mpr
      intro hc
      rcases List.any_eq_true.mp hc with ⟨x, hx, hpx⟩
      exact List.find?_eq_none.mp hfA x hx hpx
    have hzero : db0.countP (fun u => u.email == e) = 0 :=
      List.countP_eq_zero.mpr (fun x hx => List.find?_eq_none.mp hfA x hx)
    simp [raceSignUp, hA, hB, signUpCommit, createUser, heA, heB, hany,
      List.any_append, List.countP_append, hzero, List.countP_cons]
  · intro db b now nid u hf hn2 he2 hp2 hlen2
    have hpre : signUpPrecheck db b =
        some { status := 400, body := mkBody false "Email already registered",
               cookie := none } := by
      unfold signUpPrecheck
      rw [hn2, he2, hp2]
      simp [hlen2, hf]
    unfold signUp
    rw [hpre]

/-- Witness for C6 at the concrete race of the counterexample. -/
theorem C6_witness :
    (raceSignUp defaultEnv [] annReq annReq 0 0 "u1" "u2").1.status = 201 ∧
    (raceSignUp defaultEnv [] annReq annReq 0 0 "u1" "u2").2.1.status = 500 :=
  have h := (C6_amended_duplicate_sequential_400_race_loser_500 defaultEnv []
    annReq annReq 0 0 "u1" "u2" "a@x.com" rfl rfl (by decide) (by decide)).1
  ⟨h.1, h.2.1⟩

/-- A string that equals the empty string has length zero. -/
lemma length_eq_zero_of_beq_empty (s : String) (h : (s == "") = true) :
    s.length = 0 := by
  rw [beq_iff_eq] at h
  rw [h]
  rfl

/-- When all three presence checks and the password length check of the
signUp controller pass, execution reaches the duplicate-email lookup:
the pre-check either proceeds or answers the duplicate 400. -/
lemma signUpPrecheck_reaches_dup_check (db : Store) (b : ReqBody)
    (hn : (fieldVal b.name == "") = false)
    (he : (fieldVal b.email == "") = false)
    (hp : (fieldVal b.password == "") = false)
    (hlen : ¬ (fieldVal b.password).length < 6) :
    signUpPrecheck db b = none ∨
    signUpPrecheck db b =
      some { status := 400, body := mkBody false "Email already registered",
             cookie := none } := by
  unfold signUpPrecheck
  rw [hn, he, hp]
  simp [hlen]
  cases hf : findByEmail db (fieldVal b.email) <;> simp [hf]

/-- A singleton-or-empty conditional list is empty exactly when the
condition fails. -/
lemma ite_singleton_eq_nil_iff {α : Type} (c : Prop) [Decidable c] (x : α) :
    (if c then [x] else []) = [] ↔ ¬ c := by
  split_ifs with h <;> simp [h]

/-- The name chain accepts exactly a present name whose trimmed length
lies between 2 and 50. -/
lemma nameChainMsgs_eq_nil_iff (v : Option String) :
    nameChainMsgs v = [] ↔
      ∃ n, v = some n ∧ 2 ≤ (jsTrim n).length ∧ (jsTrim n).length ≤ 50 := by
  cases v with
  | none => simp [nameChainMsgs]
  | some s =>
    simp only [nameChainMsgs, List.append_eq_nil, ite_singleton_eq_nil_iff,
      Option.some.injEq, exists_eq_left', Bool.or_eq_true, decide_eq_true_eq,
      not_or, Bool.not_eq_true]
    constructor
    · rintro ⟨hne, hlt, hgt⟩
      omega
    · rintro ⟨hlo, hhi⟩
      refine ⟨?_, by omega, by omega⟩
      rw [Bool.eq_false_iff]
      intro hc
      have := length_eq_zero_of_beq_empty _ hc
      omega

/-- The email chain accepts exactly a present email whose trimmed value
is non-empty and passes the email validator. -/
lemma emailChainMsgs_eq_nil_iff (isEmail : String → Bool) (v : Option String) :
    emailChainMsgs isEmail v = [] ↔
      ∃ e, v = some e ∧ (jsTrim e == "") = false ∧
        isEmail (jsTrim e) = true := by
  cases v with
  | none => simp [emailChainMsgs]
  | some s =>
    simp only [emailChainMsgs, List.append_eq_nil, ite_singleton_eq_nil_iff,
      Option.some.injEq, exists_eq_left', not_not, Bool.not_eq_true]
    simp [Bool.not_eq_false]

/-- The sign-up password chain accepts exactly a present password of
length at least 6. -/
lemma passwordChainSignUpMsgs_eq_nil_iff (v : Option String) :
    passwordChainSignUpMsgs v = [] ↔ ∃ p, v = some p ∧ 6 ≤ p.length := by
  cases v with
  | none => simp [passwordChainSignUpMsgs]
  | some s =>
    simp only [passwordChainSignUpMsgs, List.append_eq_nil,
      ite_singleton_eq_nil_iff, Option.some.injEq, exists_eq_left',
      Bool.not_eq_true]
    constructor
    · rintro ⟨hne, hlt⟩
      omega
    · intro h
      refine ⟨?_, by omega⟩
      rw [Bool.eq_false_iff]
      intro hc
      have := length_eq_zero_of_beq_empty _ hc
      omega

/-- Acceptance condition of the validateSignUp chain: each field
present, the trimmed name between 2 and 50 characters, the trimmed
email non-empty and accepted by the email validator, the password at
least 6 characters. -/
def signUpFieldsValid (isEmail : String → Bool) (b : ReqBody) : Prop :=
  (∃ n, b.name = some n ∧
    2 ≤ (jsTrim n).length ∧ (jsTrim n).length ≤ 50) ∧
  (∃ e, b.email = some e ∧
    (jsTrim e == "") = false ∧ isEmail (jsTrim e) = true) ∧
  (∃ p, b.password = some p ∧ 6 ≤ p.length)

/-- Concrete fixture: a request whose only flaw is a one-letter name. -/
def shortNameReq : ReqBody :=
  { name := some "A", email := some "a@x.com", password := some "secret1" }

/-- C7 counterexample: a request with all three fields present and a
7-character password, whose name is the single letter A, is rejected by
route validation with 400 and never reaches the duplicate-email check,
refuting the claimed if-and-only-if. The email validator is taken as
accepting everything, the weakest reading in favour of the claim. -/
theorem C7_counterexample :
    shortNameReq.name ≠ none ∧ shortNameReq.email ≠ none ∧
    shortNameReq.password ≠ none ∧
    6 ≤ (fieldVal shortNameReq.password).length ∧
    (signUpRoute (fun _ => true) defaultEnv [] shortNameReq 0 "u1").1.status
      = 400 ∧
    (signUpRoute (fun _ => true) defaultEnv [] shortNameReq 0 "u1").1.body.message
      = "Validation failed" ∧
    (signUpRoute (fun _ => true) defaultEnv [] shortNameReq 0 "u1").2 = [] := by
  decide

/-- C7 amended: the signup endpoint rejects with the 400 validation
response exactly when a field is missing, the trimmed name is shorter
than 2 or longer than 50 characters, the trimmed email is empty or
fails the email-format validator, or the password is shorter than 6
characters; when every check passes the request proceeds, on the
sanitized body, past the controller presence and length checks to the
duplicate-email check. -/
theorem C7_amended_validation_characterization
    (isEmail : String → Bool) (env : Env) (db : Store) (b : ReqBody)
    (now : Nat) (newId : String) :
    ((validateSignUp isEmail b).1 = [] ↔ signUpFieldsValid isEmail b) ∧
    ((validateSignUp isEmail b).1 ≠ [] →
      signUpRoute isEmail env db b now newId =
        ({ status := 400,
           body := { success := false, message := "Validation failed",
                     user := none,
                     errors := some (validateSignUp isEmail b).1 },
           cookie := none }, db)) ∧
    ((validateSignUp isEmail b).1 = [] →
      signUpRoute isEmail env db b now newId =
        signUp env db (validateSignUp isEmail b).2 now newId ∧
      (signUpPrecheck db (validateSignUp isEmail b).2 = none ∨
       signUpPrecheck db (validateSignUp isEmail b).2 =
         some { status := 400,
                body := mkBody false "Email already registered",
                cookie := none })) := by
  have hiff : (validateSignUp isEmail b).1 = [] ↔
      signUpFieldsValid isEmail b := by
    simp only [validateSignUp, signUpFieldsValid, List.append_eq_nil,
      nameChainMsgs_eq_nil_iff, emailChainMsgs_eq_nil_iff,
      passwordChainSignUpMsgs_eq_nil_iff, and_assoc]
  refine ⟨hiff, ?_, ?_⟩
  · intro hne
    have hie : (validateSignUp isEmail b).1.isEmpty = false := by
      cases h : (validateSignUp isEmail b).1 with
      | nil => exact absurd h hne
      | cons x xs => rfl
    unfold signUpRoute checkValidation
    rw [hie]
    simp
  · intro hnil
    constructor
    · unfold signUpRoute checkValidation
      rw [hnil]
      simp
    · obtain ⟨⟨n, hn, hlo, hhi⟩, ⟨e, he, hene, hisem⟩, ⟨p, hp, hplen⟩⟩ :=
        hiff.mp hnil
      have hname2 : (validateSignUp isEmail b).2.name = some (jsTrim n) := by
        simp [validateSignUp, hn]
      have hemail2 : (validateSignUp isEmail b).2.email =
          some (normalizeEmail (jsTrim e)) := by
        simp [validateSignUp, he]
      have hpw2 : (validateSignUp isEmail b).2.password = some p := by
        simp [validateSignUp, hp]
      apply signUpPrecheck_reaches_dup_check
      · rw [hname2]
        simp only [fieldVal, Option.getD_some]
        exact beq_empty_eq_false_of_le_length _ (by omega)
      · rw [hemail2]
        simp only [fieldVal, Option.getD_some]
        rw [normalizeEmail_beq_empty]
        exact hene
      · rw [hpw2]
        simp only [fieldVal, Option.getD_some]
        exact beq_empty_eq_false_of_le_length _ (by omega)
      · rw [hpw2]
        simp only [fieldVal, Option.getD_some]
        omega

/-- Witness for C7 at the concrete accepted sign-up of the spec
example. -/
theorem C7_witness :
    signUpRoute (fun _ => true) defaultEnv [] annReq 0 "u1" =
      signUp defaultEnv [] (validateSignUp (fun _ => true) annReq).2 0 "u1" :=
  ((C7_amended_validation_characterization (fun _ => true) defaultEnv []
      annReq 0 "u1").2.2 (by decide)).1

/-- C8 counterexample: with the token lifetime reconfigured to one day
(86400000 ms), the cookie maxAge stays at the hard-coded 7 days
(604800000 ms) and differs from the token lifetime, refuting the claim
for reconfigured lifetimes. -/
theorem C8_counterexample :
    tokenLifetimeMs
        { jwtSecret := "s", jwtExpiresInMs := some 86400000,
          nodeEnv := "production" } = 86400000 ∧
    (setTokenCookie
        { jwtSecret := "s", jwtExpiresInMs := some 86400000,
          nodeEnv := "production" }
        (TokenWire.malformed "t")).maxAge = some 604800000 ∧
    (setTokenCookie
        { jwtSecret := "s", jwtExpiresInMs := some 86400000,
          nodeEnv := "production" }
        (TokenWire.malformed "t")).maxAge ≠
      some (tokenLifetimeMs
        { jwtSecret := "s", jwtExpiresInMs := some 86400000,
          nodeEnv := "production" }) := by
  refine ⟨rfl, rfl, ?_⟩
  decide

/-- C8 amended: the token cookie always carries the name token, the
token value, httpOnly, secure exactly in production, sameSite strict,
path /, and a maxAge fixed at 7 days in milliseconds; that maxAge
equals the token lifetime only under the default (non-reconfigured)
lifetime. -/
theorem C8_amended_cookie_attributes (env : Env) (t : TokenWire) :
    (setTokenCookie env t).name = "token" ∧
    (setTokenCookie env t).value = t ∧
    (setTokenCookie env t).httpOnly = true ∧
    ((setTokenCookie env t).secure = true ↔ env.nodeEnv = "production") ∧
    (setTokenCookie env t).sameSite = "strict" ∧
    (setTokenCookie env t).path = "/" ∧
    (setTokenCookie env t).maxAge = some (7 * 24 * 60 * 60 * 1000) ∧
    (env.jwtExpiresInMs = none →
      (setTokenCookie env t).maxAge = some (tokenLifetimeMs env)) := by
  refine ⟨rfl, rfl, rfl, ?_, rfl, rfl, rfl, ?_⟩
  · simp [setTokenCookie]
  · intro hd
    simp [setTokenCookie, tokenLifetimeMs, hd]

/-- Witness for C8 under the default configuration, whose lifetime is
the 7-day default. -/
theorem C8_witness :
    (setTokenCookie defaultEnv (TokenWire.malformed "t")).maxAge =
      some (tokenLifetimeMs defaultEnv) :=
  (C8_amended_cookie_attributes defaultEnv
      (TokenWire.malformed "t")).2.2.2.2.2.2.2 rfl

/-- C9: route validation trims and lowercases (normalizeEmail) the
email before either controller runs, so two requests whose raw emails
sanitize alike — in particular, differ only in letter case — are
handled identically by the full sign-in and sign-up pipelines (hence by
the duplicate-email check); the sanitized body carries the normalized
email, and the spec example John@EXAMPLE.COM normalizes to the stored
john@example.com. The two verdict-equality hypotheses reflect that the
external email validator of the validator library is case-insensitive
over its input. -/
theorem C9_email_case_insensitive_handling
    (isEmail : String → Bool) (env : Env) (db : Store)
    (nm pw : Option String) (e1 e2 : String) (now : Nat) (newId : String)
    (hlow : normalizeEmail (jsTrim e1) = normalizeEmail (jsTrim e2))
    (hempty : (jsTrim e1 == "") = (jsTrim e2 == ""))
    (hvalid : isEmail (jsTrim e1) = isEmail (jsTrim e2)) :
    signInRoute isEmail env db
        { name := nm, email := some e1, password := pw } now =
      signInRoute isEmail env db
        { name := nm, email := some e2, password := pw } now ∧
    signUpRoute isEmail env db
        { name := nm, email := some e1, password := pw } now newId =
      signUpRoute isEmail env db
        { name := nm, email := some e2, password := pw } now newId ∧
    (validateSignIn isEmail
        { name := nm, email := some e1, password := pw }).2.email =
      some (normalizeEmail (jsTrim e1)) ∧
    normalizeEmail (jsTrim "John@EXAMPLE.COM") = "john@example.com" := by
  have hs : validateSignIn isEmail
        { name := nm, email := some e1, password := pw } =
      validateSignIn isEmail
        { name := nm, email := some e2, password := pw } := by
    unfold validateSignIn emailChainMsgs
    simp [hlow, hempty, hvalid]
  have hu : validateSignUp isEmail
        { name := nm, email := some e1, password := pw } =
      validateSignUp isEmail
        { name := nm, email := some e2, password := pw } := by
    unfold validateSignUp emailChainMsgs
    simp [hlow, hempty, hvalid]
  refine ⟨?_, ?_, rfl, by decide⟩
  · unfold signInRoute
    rw [hs]
  · unfold signUpRoute
    rw [hu]

/-- Witness for C9 at the spec example pair of emails against the
stored lowercase user. -/
theorem C9_witness :
    signInRoute (fun _ => true) defaultEnv [annUser]
        { name := some "Ann", email := some "John@EXAMPLE.COM",
          password := some "secret1" } 0 =
      signInRoute (fun _ => true) defaultEnv [annUser]
        { name := some "Ann", email := some "john@example.com",
          password := some "secret1" } 0 :=
  (C9_email_case_insensitive_handling (fun _ => true) defaultEnv [annUser]
      (some "Ann") (some "secret1") "John@EXAMPLE.COM" "john@example.com"
      0 "u9" (by decide) (by decide) (by decide)).1

/-- The success flag of a response agrees with its status being in the
2xx range. -/
def successMatchesStatus (r : HttpResponse) : Prop :=
  (r.body.success = true) ↔ (200 ≤ r.status ∧ r.status < 300)

/-- Every early-return response of the signUp pre-check is a failure
response with a non-2xx status. -/
lemma signUpPrecheck_some_matches (db : Store) (b : ReqBody)
    (r : HttpResponse) (h : signUpPrecheck db b = some r) :
    successMatchesStatus r := by
  unfold signUpPrecheck at h
  split_ifs at h
  · simp only [Option.some.injEq] at h
    subst h
    simp [successMatchesStatus, mkBody]
  · simp only [Option.some.injEq] at h
    subst h
    simp [successMatchesStatus, mkBody]
  · cases hf : findByEmail db (fieldVal b.email) with
    | some u =>
      rw [hf] at h
      simp only [Option.some.injEq] at h
      subst h
      simp [successMatchesStatus, mkBody]
    | none =>
      rw [hf] at h
      simp at h

/-- The insert phase of signUp answers 201 with success or 500 without
it. -/
lemma signUpCommit_matches (env : Env) (db : Store) (b : ReqBody)
    (now : Nat) (newId : String) :
    successMatchesStatus (signUpCommit env db b now newId).1 := by
  unfold signUpCommit createUser
  split_ifs with h <;> simp [successMatchesStatus, mkBody]

/-- The signUp controller always emits a success flag agreeing with a
2xx status. -/
lemma signUp_matches (env : Env) (db : Store) (b : ReqBody) (now : Nat)
    (newId : String) : successMatchesStatus (signUp env db b now newId).1 := by
  unfold signUp
  cases hpre : signUpPrecheck db b with
  | some r => exact signUpPrecheck_some_matches db b r hpre
  | none => exact signUpCommit_matches env db b now newId

/-- The checkValidation helper only emits failure responses with status
400. -/
lemma checkValidation_some_matches (errs : List ErrItem) (r : HttpResponse)
    (h : checkValidation errs = some r) : successMatchesStatus r := by
  unfold checkValidation at h
  by_cases hc : errs.isEmpty = true
  · rw [if_pos hc] at h
    simp at h
  · rw [if_neg hc] at h
    simp only [Option.some.injEq] at h
    rw [← h]
    simp [successMatchesStatus]

/-- The signIn controller always emits a success flag agreeing with a
2xx status. -/
lemma signIn_matches (env : Env) (db : Store) (b : ReqBody) (now : Nat) :
    successMatchesStatus (signIn env db b now) := by
  unfold signIn
  split_ifs with h1
  · simp [successMatchesStatus, mkBody]
  · cases hf : findByEmail db (fieldVal b.email) with
    | none => simp [successMatchesStatus, mkBody]
    | some u =>
      dsimp only
      split_ifs with h2 <;> simp [successMatchesStatus, mkBody]

/-- C10: across the auth subsystem — the full signup pipeline, the full
signin pipeline, signOut, every response the middleware produces
itself, and the validation helper — the boolean success field of a JSON
response is true exactly when the status code is 2xx (200 or 201), and
false on every 400, 401 and 500 response. -/
theorem C10_success_flag_iff_2xx
    (isEmail : String → Bool) (env : Env) (db : Store) (b : ReqBody)
    (now : Nat) (newId : String) (tok : Option TokenWire)
    (errs : List ErrItem) :
    successMatchesStatus (signUpRoute isEmail env db b now newId).1 ∧
    successMatchesStatus (signInRoute isEmail env db b now) ∧
    successMatchesStatus (signOut env) ∧
    (∀ r, authenticate env db tok now = AuthOutcome.respond r →
      successMatchesStatus r) ∧
    (∀ r, checkValidation errs = some r → successMatchesStatus r) := by
  refine ⟨?_, ?_, ?_, ?_, ?_⟩
  · unfold signUpRoute
    cases hc : checkValidation (validateSignUp isEmail b).1 with
    | some r => exact checkValidation_some_matches _ r hc
    | none => exact signUp_matches env db _ now newId
  · unfold signInRoute
    cases hc : checkValidation (validateSignIn isEmail b).1 with
    | some r => exact checkValidation_some_matches _ r hc
    | none => exact signIn_matches env db _ now
  · simp [successMatchesStatus, signOut, mkBody]
  · intro r h
    unfold authenticate at h
    cases tok with
    | none =>
      simp only [AuthOutcome.respond.injEq] at h
      rw [← h]
      simp [successMatchesStatus, mkBody]
    | some t =>
      dsimp only at h
      cases hv : verifyToken env t now with
      | none =>
        rw [hv] at h
        simp only [AuthOutcome.respond.injEq] at h
        rw [← h]
        simp [successMatchesStatus, mkBody]
      | some c =>
        rw [hv] at h
        dsimp only at h
        cases hu : findById db c.userId with
        | none =>
          rw [hu] at h
          simp only [AuthOutcome.respond.injEq] at h
          rw [← h]
          simp [successMatchesStatus, mkBody]
        | some u =>
          rw [hu] at h
          simp at h
  · intro r h
    exact checkValidation_some_matches errs r h

/-- Witness for C10 at the no-cookie middleware response. -/
theorem C10_witness :
    successMatchesStatus
      { status := 401,
        body := mkBody false "Authentication required. Please sign in.",
        cookie := none } :=
  (C10_success_flag_iff_2xx (fun _ => true) defaultEnv [] annReq 0 "u1"
      none []).2.2.2.1
    { status := 401,
      body := mkBody false "Authentication required. Please sign in.",
      cookie := none } rfl

end SmartWork
